import Mathlib

/-!
Shallow embedding of the sysbench charm operator (src/sysbench.py,
src/relation_manager.py, src/constants.py, src/charm.py).

The distributed status reconciler (`SysbenchStatus`) is modelled as explicit
state passing over the peer-relation databag.  Within one `check` call the
local systemd observation `service_status()` is stable, so it is a plain
input (`serviceStatus`) of the call context.
-/

/-- Execution status enum from `constants.SysbenchExecStatusEnum`
(values unset / prepared / running / stopped / error). -/
inductive SysbenchExecStatusEnum where
  | unset
  | prepared
  | running
  | stopped
  | error
  deriving DecidableEq, Repr

abbrev Phase := SysbenchExecStatusEnum

/-- Peer-relation databag contents: the app databag's optional `status` key
(written only by the leader), this unit's optional `status` key, and the
`status` keys of the other peer units (`relation.units`), each possibly
absent. -/
structure PeerRelationData where
  appStatus : Option Phase
  unitStatus : Option Phase
  otherUnits : List (Option Phase)
  deriving DecidableEq, Repr

/-- Charm-visible shared store: the peer relation, or `none` when the
relation does not exist yet. -/
structure PeerState where
  relation : Option PeerRelationData
  deriving DecidableEq, Repr

/-- Per-call inputs of `SysbenchStatus.check`: `charm.unit.is_leader()`,
`charm.app.planned_units()`, and the locally observed phase
`service_status()` (stable within one call). -/
structure CheckCtx where
  isLeader : Bool
  plannedUnits : Nat
  serviceStatus : Phase
  deriving DecidableEq, Repr

/-- Payload of `constants.SysbenchIsInWrongStateError(unit_state, app_state)`. -/
structure SysbenchIsInWrongStateError where
  unit_state : Phase
  app_state : Phase
  deriving DecidableEq, Repr

namespace SysbenchStatus

/-- Model of `SysbenchStatus.app_status`: `none` when the peer relation is
absent, otherwise the app databag's `status` key with default `unset`. -/
def app_status (s : PeerState) : Option Phase :=
  s.relation.map fun r => r.appStatus.getD SysbenchExecStatusEnum.unset

/-- Model of `SysbenchStatus.unit_status`: `none` when the peer relation is
absent, otherwise this unit's `status` key with default `unset`. -/
def unit_status (s : PeerState) : Option Phase :=
  s.relation.map fun r => r.unitStatus.getD SysbenchExecStatusEnum.unset

/-- Model of `SysbenchStatus.set`: returns without writing when the relation
is absent; otherwise writes the status to this unit's databag, and to the
app databag as well when the unit is the leader. -/
def set (c : CheckCtx) (status : Phase) (s : PeerState) : PeerState :=
  match s.relation with
  | none => s
  | some r =>
      ⟨some { r with
          appStatus := if c.isLeader then some status else r.appStatus,
          unitStatus := some status }⟩

/-- Model of `SysbenchStatus._has_error_happened` on a present relation:
true when any other peer unit's `status` key reads `error`, or this unit's
status (default `unset`) is `error`, or the app status (default `unset`)
is `error`. -/
def has_error_happened (r : PeerRelationData) : Bool :=
  (r.otherUnits.any fun u => u == some SysbenchExecStatusEnum.error) ||
    r.unitStatus.getD SysbenchExecStatusEnum.unset == SysbenchExecStatusEnum.error ||
    r.appStatus.getD SysbenchExecStatusEnum.unset == SysbenchExecStatusEnum.error

/-- Model of `SysbenchStatus.check`, the reconciliation state machine.
The code's trivial-case guard is
`not self.app_status() or not self.unit_status() or planned_units() <= 1`;
since `app_status()`/`unit_status()` are `None` exactly when the relation
is absent (a present enum value, even UNSET, is truthy in Python), the
guard is `relation = none ∨ plannedUnits ≤ 1` and is modelled that way.
The raised `SysbenchIsInWrongStateError` is the `Except.error` branch. -/
def check (c : CheckCtx) (s : PeerState) :
    Except SysbenchIsInWrongStateError Phase × PeerState :=
  match s.relation with
  | none => (Except.ok c.serviceStatus, s)
  | some r =>
      if c.plannedUnits ≤ 1 then (Except.ok c.serviceStatus, s)
      else if has_error_happened r then (Except.ok SysbenchExecStatusEnum.error, s)
      else if c.isLeader then
        (Except.ok c.serviceStatus, set c c.serviceStatus s)
      else
        let s' := set c c.serviceStatus s
        let a := (app_status s').getD SysbenchExecStatusEnum.unset
        if c.serviceStatus ≠ a then
          (Except.error ⟨c.serviceStatus, a⟩, s')
        else
          (Except.ok c.serviceStatus, s')

/-- Repeated reconciliation calls by this agent: `runCalls cs s` folds
`check` over the call contexts `cs`, collecting the per-call results and
the final shared-store state. -/
def runCalls :
    List CheckCtx → PeerState →
      List (Except SysbenchIsInWrongStateError Phase) × PeerState
  | [], s => ([], s)
  | c :: cs, s =>
      let (res, s') := check c s
      let (rest, s'') := runCalls cs s'
      (res :: rest, s'')

end SysbenchStatus

/-- Decidable equality for `Except`, used to evaluate the model on
concrete inputs. -/
instance {ε α : Type} [DecidableEq ε] [DecidableEq α] :
    DecidableEq (Except ε α) := fun x y =>
  match x, y with
  | Except.ok a, Except.ok b =>
      if h : a = b then Decidable.isTrue (by rw [h])
      else Decidable.isFalse (by intro hc; cases hc; exact h rfl)
  | Except.error a, Except.error b =>
      if h : a = b then Decidable.isTrue (by rw [h])
      else Decidable.isFalse (by intro hc; cases hc; exact h rfl)
  | Except.ok _, Except.error _ =>
      Decidable.isFalse (by intro hc; cases hc)
  | Except.error _, Except.ok _ =>
      Decidable.isFalse (by intro hc; cases hc)

/-- Structured form of `constants.SysbenchMissingOptionsError`: either the
list message `f"{missing_param}"` naming the missing required fields, or
the fixed endpoint message. -/
inductive SysbenchMissingOptionsError where
  | missingParams (params : List String)
  | missingEndpoint
  deriving DecidableEq, Repr

/-- Validated `constants.SysbenchBaseDatabaseModel` after
`validate_if_missing_params` has normalised the fields. -/
structure SysbenchBaseDatabaseModel where
  host : String
  port : Nat
  unix_socket : String
  username : String
  password : String
  db_name : String
  tables : Int
  scale : Int
  deriving DecidableEq, Repr

/-- Raw constructor arguments of `SysbenchBaseDatabaseModel` before
validation.  `none` models a missing argument or an explicit `None` (both
make `f not in field_values or field_values[f] is None` true).  `port` is
the value after pydantic's `Optional[int]` coercion.  `tables` and `scale`
are always supplied by the charm from its config, so they are plain
integers here. -/
structure SysbenchBaseDatabaseModelInput where
  host : Option String
  port : Option Nat
  unix_socket : Option String
  username : Option String
  password : Option String
  db_name : Option String
  tables : Int
  scale : Int
  deriving DecidableEq, Repr

/-- Python truthiness of an optional string: `None` and `""` are falsy. -/
def optStrTruthy : Option String → Bool
  | none => false
  | some s => !(s == "")

/-- Python truthiness of an optional int: `None` and `0` are falsy. -/
def optNatTruthy : Option Nat → Bool
  | none => false
  | some n => !(n == 0)

/-- Model of `os.path.exists` over an abstract filesystem predicate `fs`;
`os.path.exists("")` is always false in Python. -/
def os_path_exists (fs : String → Bool) (p : String) : Bool :=
  (!(p == "")) && fs p

/-- Missing-field pass of `validate_if_missing_params`: the fields among
`username`, `password`, `db_name` (in that loop order) that are absent. -/
def missing_params (v : SysbenchBaseDatabaseModelInput) : List String :=
  (if v.username.isNone then ["username"] else []) ++
    (if v.password.isNone then ["password"] else []) ++
    (if v.db_name.isNone then ["db_name"] else [])

/-- Model of `SysbenchBaseDatabaseModel.validate_if_missing_params`
(constants.py).  `fs` is the filesystem predicate behind
`os.path.exists`; `os.path.exists("")` is always false in Python, hence
the explicit nonempty-string guard.  First pass: raise naming all absent
fields among username/password/db_name.  Then: if the unix socket path
exists, blank the host and force port 443; otherwise default the port to
443 when a host is present, blank the socket, and raise the endpoint
error when the host is falsy. -/
def validate_if_missing_params (fs : String → Bool)
    (v : SysbenchBaseDatabaseModelInput) :
    Except SysbenchMissingOptionsError SysbenchBaseDatabaseModel :=
  if missing_params v ≠ [] then
    Except.error (SysbenchMissingOptionsError.missingParams (missing_params v))
  else
    let sock := v.unix_socket.getD ""
    if os_path_exists fs sock then
      Except.ok
        { host := ""
          port := 443
          unix_socket := sock
          username := v.username.getD ""
          password := v.password.getD ""
          db_name := v.db_name.getD ""
          tables := v.tables
          scale := v.scale }
    else
      let port := if !optNatTruthy v.port && optStrTruthy v.host then
          some 443
        else v.port
      if !optStrTruthy v.host then
        Except.error SysbenchMissingOptionsError.missingEndpoint
      else
        Except.ok
          { host := v.host.getD ""
            port := port.getD 0
            unix_socket := ""
            username := v.username.getD ""
            password := v.password.getD ""
            db_name := v.db_name.getD ""
            tables := v.tables
            scale := v.scale }

/-- Whether `SysbenchBaseDatabaseModel` construction succeeds on the given
raw input (the candidate can be built, i.e. it counts as `Configured`). -/
def buildSucceeds (fs : String → Bool)
    (v : SysbenchBaseDatabaseModelInput) : Bool :=
  match validate_if_missing_params fs v with
  | Except.ok _ => true
  | Except.error _ => false

/-- Database relation status enum from
`constants.DatabaseRelationStatusEnum`. -/
inductive DatabaseRelationStatusEnum where
  | not_available
  | available
  | configured
  | error
  deriving DecidableEq, Repr

namespace DatabaseRelationManager

/-- External view of one connection kind (one entry of
`DatabaseRelationManager.relations`): how many relations of that name are
established (`len(model.relations[name])`), whether the single relation's
data is readable (`_is_relation_active`), and the result of
`SysbenchOptionsFactory.get_database_options()` — `some` when it does not
raise, carrying the built candidate. -/
structure KindRelation where
  count : Nat
  active : Bool
  options : Option SysbenchBaseDatabaseModel
  deriving DecidableEq, Repr

/-- Model of `DatabaseRelationManager.relation_status`: raises
`MultipleRelationsToDBError` (the `Except.error ()` branch) when more than
one relation of the kind exists; `not_available` when none; `configured`
when the single relation is active and the options object builds;
otherwise `available`. -/
def relation_status (k : KindRelation) : Except Unit DatabaseRelationStatusEnum :=
  if 1 < k.count then Except.error ()
  else if k.count == 0 then Except.ok DatabaseRelationStatusEnum.not_available
  else if k.active && k.options.isSome then
    Except.ok DatabaseRelationStatusEnum.configured
  else Except.ok DatabaseRelationStatusEnum.available

/-- Loop body of `DatabaseRelationManager.check` with the running
aggregate `st` (initially `not_available`): any kind whose status is not
`not_available` when one was already found raises
`MultipleRelationsToDBError`; a raise from `relation_status` itself
propagates. -/
def checkAgg :
    List KindRelation → DatabaseRelationStatusEnum →
      Except Unit DatabaseRelationStatusEnum
  | [], st => Except.ok st
  | k :: rest, st =>
      match relation_status k with
      | Except.error e => Except.error e
      | Except.ok s =>
          if s ≠ DatabaseRelationStatusEnum.not_available then
            if st ≠ DatabaseRelationStatusEnum.not_available then
              Except.error ()
            else checkAgg rest s
          else checkAgg rest st

/-- Model of `DatabaseRelationManager.check`: aggregate status over all
connection kinds, starting from `not_available`. -/
def check (kinds : List KindRelation) : Except Unit DatabaseRelationStatusEnum :=
  checkAgg kinds DatabaseRelationStatusEnum.not_available

/-- Model of `DatabaseRelationManager.get_db_config`: scan the kinds in
order and return the options of the first kind in `configured` state, or
`none`; a raise from `relation_status` propagates. -/
def get_db_config :
    List KindRelation → Except Unit (Option SysbenchBaseDatabaseModel)
  | [] => Except.ok none
  | k :: rest =>
      match relation_status k with
      | Except.error e => Except.error e
      | Except.ok s =>
          if s = DatabaseRelationStatusEnum.configured then Except.ok k.options
          else get_db_config rest

/-- Whether a kind reports a status other than `not_available`, in the
sense of the spec's `statusOf`: its per-kind status check returns
normally with a non-`NotAvailable` value. -/
def reports_non_na (k : KindRelation) : Bool :=
  match relation_status k with
  | Except.ok DatabaseRelationStatusEnum.not_available => false
  | Except.ok _ => true
  | Except.error _ => false

/-- Modelled from the spec's words for `aggregateStatus()` (spec section
4.1): fail when more than one kind reports non-`NotAvailable`
simultaneously, otherwise return the single non-`NotAvailable` status
found, or `NotAvailable` if none. -/
def aggregateStatusSpec (kinds : List KindRelation) :
    Except Unit DatabaseRelationStatusEnum :=
  match kinds.filter reports_non_na with
  | [] => Except.ok DatabaseRelationStatusEnum.not_available
  | [k] => relation_status k
  | _ => Except.error ()

/-- Modelled from the spec's words for `selectedConfig()` (spec section
4.1): the candidate of the first kind found in `Configured` state, or
nothing. -/
def firstConfiguredCandidate :
    List KindRelation → Option SysbenchBaseDatabaseModel
  | [] => none
  | k :: rest =>
      if relation_status k = Except.ok DatabaseRelationStatusEnum.configured then
        k.options
      else firstConfiguredCandidate rest

end DatabaseRelationManager

namespace SysbenchOperator

/-- Outcome of an action handler as seen by the juju action (`event.fail`
with the corresponding message, or `event.set_results`). -/
inductive ActionResult where
  | failedNotLeader
  | failedWrongState
  | failedMissingOptions
  | failedExec
  | prepared
  deriving DecidableEq, Repr

/-- Model of `SysbenchOperator.check` (charm.py): wraps
`SysbenchStatus.check` and converts a raised
`SysbenchIsInWrongStateError` into `None` (the event is deferred). -/
def charm_check (c : CheckCtx) (s : PeerState) : Option Phase × PeerState :=
  match SysbenchStatus.check c s with
  | (Except.ok p, s') => (some p, s')
  | (Except.error _, s') => (none, s')

/-- Model of `SysbenchOperator.on_prepare_action` (charm.py).  `dbOk` is
whether `database.get_execution_options()` returns options; `execOk` is
whether the `sysbench_svc.py prepare` subprocess exits cleanly.  On a
subprocess failure, `_execute_sysbench_cmd` writes `error` to the shared
store before raising `SysbenchExecError`, which the handler reports as a
failed action.  Note the source has no `return` after the
`event.fail("already prepared")` call, so a non-`unset` status still
falls through to the prepare command; the modelled result keeps only the
final outcome. -/
def on_prepare_action (c : CheckCtx) (dbOk execOk : Bool) (s : PeerState) :
    ActionResult × PeerState :=
  if !c.isLeader then (ActionResult.failedNotLeader, s)
  else
    match charm_check c s with
    | (none, s') => (ActionResult.failedWrongState, s')
    | (some _, s') =>
        if !dbOk then (ActionResult.failedMissingOptions, s')
        else if !execOk then
          (ActionResult.failedExec, SysbenchStatus.set c SysbenchExecStatusEnum.error s')
        else
          (ActionResult.prepared,
            SysbenchStatus.set c SysbenchExecStatusEnum.prepared s')

end SysbenchOperator

section StatusReconcilerTheorems

/-- Helper: with at most one relation of a kind, `relation_status` returns
normally. -/
theorem DatabaseRelationManager.relation_status_ok
    (k : DatabaseRelationManager.KindRelation) (hk : k.count ≤ 1) :
    ∃ s, DatabaseRelationManager.relation_status k = Except.ok s := by
  unfold DatabaseRelationManager.relation_status
  rw [if_neg (by omega)]
  split
  · exact ⟨_, rfl⟩
  · split
    · exact ⟨_, rfl⟩
    · exact ⟨_, rfl⟩

/-- C4: when `planned_units <= 1` or either stored phase is absent (the
trivial bootstrap case), `check` returns the locally observed phase
directly and leaves the shared store untouched. -/
theorem sysbench_check_trivial_case (c : CheckCtx) (s : PeerState)
    (h : c.plannedUnits ≤ 1 ∨ SysbenchStatus.app_status s = none ∨
      SysbenchStatus.unit_status s = none) :
    SysbenchStatus.check c s = (Except.ok c.serviceStatus, s) := by
  obtain ⟨rel⟩ := s
  cases rel with
  | none => rfl
  | some r =>
      have hp : c.plannedUnits ≤ 1 := by
        rcases h with h | h | h
        · exact h
        · simp [SysbenchStatus.app_status] at h
        · simp [SysbenchStatus.unit_status] at h
      simp [SysbenchStatus.check, hp]

/-- Witness for C4: one unit, service running, store unchanged. -/
theorem sysbench_check_trivial_case_witness :
    SysbenchStatus.check ⟨false, 1, SysbenchExecStatusEnum.running⟩
        ⟨some ⟨some SysbenchExecStatusEnum.unset, some SysbenchExecStatusEnum.unset, []⟩⟩ =
      (Except.ok SysbenchExecStatusEnum.running,
        ⟨some ⟨some SysbenchExecStatusEnum.unset, some SysbenchExecStatusEnum.unset, []⟩⟩) :=
  sysbench_check_trivial_case _ _ (Or.inl (by decide))

/-- C10: when the peer relation is absent, `set` silently does nothing:
no record is written and no error is raised (the function is total and
returns the state unchanged). -/
theorem sysbench_set_silent_without_relation (c : CheckCtx) (st : Phase)
    (s : PeerState) (h : s.relation = none) :
    SysbenchStatus.set c st s = s := by
  obtain ⟨rel⟩ := s
  cases rel with
  | none => rfl
  | some r => simp at h

/-- Witness for C10: setting `error` with no relation changes nothing. -/
theorem sysbench_set_silent_without_relation_witness :
    SysbenchStatus.set ⟨true, 3, SysbenchExecStatusEnum.unset⟩
        SysbenchExecStatusEnum.error ⟨none⟩ = ⟨none⟩ :=
  sysbench_set_silent_without_relation _ _ _ rfl

/-- C9: whenever `check` raises `SysbenchIsInWrongStateError`, this unit's
own record has already been overwritten with the locally observed phase,
which is also the error's `unit_state` payload. -/
theorem sysbench_wrong_state_after_own_write (c : CheckCtx) (s s' : PeerState)
    (e : SysbenchIsInWrongStateError)
    (h : SysbenchStatus.check c s = (Except.error e, s')) :
    SysbenchStatus.unit_status s' = some c.serviceStatus ∧
      e.unit_state = c.serviceStatus := by
  obtain ⟨rel⟩ := s
  cases rel with
  | none => simp [SysbenchStatus.check] at h
  | some r =>
      simp only [SysbenchStatus.check] at h
      split at h
      · simp at h
      · split at h
        · simp at h
        · split at h
          · simp at h
          · split at h
            · obtain ⟨he, hs⟩ := Prod.mk.injEq .. ▸ h
              obtain rfl : e = ⟨c.serviceStatus, _⟩ := (Except.error.injEq .. ▸ he).symm
              refine ⟨?_, rfl⟩
              rw [← hs]
              simp [SysbenchStatus.unit_status, SysbenchStatus.set]
            · simp at h

/-- Witness for C9: a diverging follower raises and its record reads the
local phase. -/
theorem sysbench_wrong_state_after_own_write_witness :
    SysbenchStatus.unit_status
        ⟨some ⟨some SysbenchExecStatusEnum.prepared, some SysbenchExecStatusEnum.running,
          [some SysbenchExecStatusEnum.prepared]⟩⟩ =
      some SysbenchExecStatusEnum.running ∧
    (⟨SysbenchExecStatusEnum.running, SysbenchExecStatusEnum.prepared⟩ :
      SysbenchIsInWrongStateError).unit_state = SysbenchExecStatusEnum.running :=
  sysbench_wrong_state_after_own_write
    ⟨false, 3, SysbenchExecStatusEnum.running⟩
    ⟨some ⟨some SysbenchExecStatusEnum.prepared, some SysbenchExecStatusEnum.unset,
      [some SysbenchExecStatusEnum.prepared]⟩⟩
    _ _ (by decide)

end StatusReconcilerTheorems

/-- C1: for a non-leader with more than one planned unit, both stored
phases present and no record reading error, `check` writes its own record
and then raises `SysbenchIsInWrongStateError(local, group)` exactly when
the locally observed phase differs from the stored group phase, returning
the local phase when they agree. -/
theorem sysbench_follower_divergence_iff (c : CheckCtx) (r : PeerRelationData)
    (g u : Phase) (hg : r.appStatus = some g) (_hu : r.unitStatus = some u)
    (hp : 1 < c.plannedUnits) (hl : c.isLeader = false)
    (he : SysbenchStatus.has_error_happened r = false) :
    SysbenchStatus.check c ⟨some r⟩ =
      (if c.serviceStatus = g then Except.ok c.serviceStatus
        else Except.error ⟨c.serviceStatus, g⟩,
        SysbenchStatus.set c c.serviceStatus ⟨some r⟩) := by
  have hple : ¬(c.plannedUnits ≤ 1) := by omega
  by_cases hsg : c.serviceStatus = g <;>
    simp [SysbenchStatus.check, SysbenchStatus.set, SysbenchStatus.app_status,
      hl, hg, hsg, hple, he]

/-- Witness for C1 (the spec's scenario C): follower observes `running`
while the group phase is `prepared`, so it raises after updating its own
record; had they matched it would have returned the local phase. -/
theorem sysbench_follower_divergence_iff_witness :
    SysbenchStatus.check ⟨false, 3, SysbenchExecStatusEnum.running⟩
        ⟨some ⟨some SysbenchExecStatusEnum.prepared, some SysbenchExecStatusEnum.prepared,
          [some SysbenchExecStatusEnum.prepared]⟩⟩ =
      (Except.error ⟨SysbenchExecStatusEnum.running, SysbenchExecStatusEnum.prepared⟩,
        ⟨some ⟨some SysbenchExecStatusEnum.prepared, some SysbenchExecStatusEnum.running,
          [some SysbenchExecStatusEnum.prepared]⟩⟩) := by
  rw [sysbench_follower_divergence_iff _ _ SysbenchExecStatusEnum.prepared
    SysbenchExecStatusEnum.prepared rfl rfl (by decide) rfl (by decide)]
  decide

/-- Helper for C2: in a poisoned store a single `check` call returns
`error` and leaves the store untouched, for any role and local phase. -/
theorem sysbench_check_frozen_on_error (c : CheckCtx) (r : PeerRelationData)
    (he : SysbenchStatus.has_error_happened r = true)
    (hp : 1 < c.plannedUnits) :
    SysbenchStatus.check c ⟨some r⟩ =
      (Except.ok SysbenchExecStatusEnum.error, ⟨some r⟩) := by
  have hple : ¬(c.plannedUnits ≤ 1) := by omega
  simp [SysbenchStatus.check, hple, he]

/-- C2: once any record (another unit's, this unit's own, or the app's)
reads `error`, every reconciliation call — leader or follower, whatever
the locally observed phase — returns `error`, and the store is left
exactly as it was, so every subsequent call does the same until an
explicit reset rewrites the records. -/
theorem sysbench_error_is_sticky (r : PeerRelationData)
    (he : SysbenchStatus.has_error_happened r = true)
    (cs : List CheckCtx) (hcs : ∀ c ∈ cs, 1 < c.plannedUnits) :
    SysbenchStatus.runCalls cs ⟨some r⟩ =
      (cs.map fun _ => Except.ok SysbenchExecStatusEnum.error, ⟨some r⟩) := by
  induction cs with
  | nil => rfl
  | cons c cs ih =>
      have h1 := sysbench_check_frozen_on_error c r he (hcs c (List.mem_cons_self c cs))
      simp [SysbenchStatus.runCalls, h1,
        ih fun c' hc' => hcs c' (List.mem_cons_of_mem _ hc')]

/-- Witness for C2: with another unit's record reading `error`, a leader
call and then a follower call both return `error` and change nothing. -/
theorem sysbench_error_is_sticky_witness :
    SysbenchStatus.runCalls
        [⟨true, 2, SysbenchExecStatusEnum.running⟩, ⟨false, 3, SysbenchExecStatusEnum.prepared⟩]
        ⟨some ⟨some SysbenchExecStatusEnum.unset, some SysbenchExecStatusEnum.unset,
          [some SysbenchExecStatusEnum.error]⟩⟩ =
      ([Except.ok SysbenchExecStatusEnum.error, Except.ok SysbenchExecStatusEnum.error],
        ⟨some ⟨some SysbenchExecStatusEnum.unset, some SysbenchExecStatusEnum.unset,
          [some SysbenchExecStatusEnum.error]⟩⟩) :=
  sysbench_error_is_sticky _ (by decide) _ (by decide)

section RelationManagerTheorems

open DatabaseRelationManager

/-- Helper: `reports_non_na` through a normally returned status. -/
theorem reports_non_na_of_ok (k : KindRelation) (s : DatabaseRelationStatusEnum)
    (h : relation_status k = Except.ok s) :
    reports_non_na k = decide (s ≠ DatabaseRelationStatusEnum.not_available) := by
  unfold reports_non_na
  rw [h]
  cases s <;> rfl

/-- C6 (amended): provided every kind has at most one established
relation, `get_db_config` returns the options of the first kind in
`configured` state — or nothing when no kind is configured — and never
raises. -/
theorem drm_get_db_config_first_configured (kinds : List KindRelation)
    (hc : ∀ k ∈ kinds, k.count ≤ 1) :
    get_db_config kinds = Except.ok (firstConfiguredCandidate kinds) := by
  induction kinds with
  | nil => rfl
  | cons k rest ih =>
      obtain ⟨s, hs⟩ := relation_status_ok k (hc k (List.mem_cons_self k rest))
      by_cases hcfg : s = DatabaseRelationStatusEnum.configured
      · subst hcfg
        simp [get_db_config, firstConfiguredCandidate, hs]
      · simp [get_db_config, firstConfiguredCandidate, hs, hcfg,
          ih fun k' hk' => hc k' (List.mem_cons_of_mem _ hk')]

/-- Witness for C6: two configured kinds — the first one's candidate is
returned, without raising. -/
theorem drm_get_db_config_first_configured_witness :
    get_db_config
        [⟨1, true, some ⟨"h", 3306, "", "u", "p", "d", 10, 1⟩⟩,
          ⟨1, true, some ⟨"g", 5432, "", "u", "p", "d", 10, 1⟩⟩] =
      Except.ok (firstConfiguredCandidate
        [⟨1, true, some ⟨"h", 3306, "", "u", "p", "d", 10, 1⟩⟩,
          ⟨1, true, some ⟨"g", 5432, "", "u", "p", "d", 10, 1⟩⟩]) :=
  drm_get_db_config_first_configured _ (by decide)

/-- Counterexample for C6 as stated: with a single kind holding two
relations at once, no kind is in `configured` state, yet `get_db_config`
raises `MultipleRelationsToDBError` instead of returning nothing. -/
theorem drm_get_db_config_raises_on_duplicate_kind :
    get_db_config [⟨2, false, none⟩] = Except.error () ∧
    ([⟨2, false, none⟩] : List KindRelation).filter reports_non_na = [] := by
  constructor
  · rfl
  · rfl

end RelationManagerTheorems

section AggregateCheckTheorems

open DatabaseRelationManager

/-- Helper: once the running aggregate is non-`not_available`, any further
kind reporting non-`not_available` raises; otherwise the aggregate is
returned. -/
theorem checkAgg_acc_active (kinds : List KindRelation)
    (hc : ∀ k ∈ kinds, k.count ≤ 1) (st : DatabaseRelationStatusEnum)
    (hst : st ≠ DatabaseRelationStatusEnum.not_available) :
    checkAgg kinds st =
      if kinds.filter reports_non_na = [] then Except.ok st
      else Except.error () := by
  induction kinds with
  | nil => simp [checkAgg]
  | cons k rest ih =>
      obtain ⟨s, hs⟩ := relation_status_ok k (hc k (List.mem_cons_self k rest))
      have hrep := reports_non_na_of_ok k s hs
      by_cases hsna : s = DatabaseRelationStatusEnum.not_available
      · subst hsna
        have hrep0 : reports_non_na k = false := by simp [hrep]
        rw [show checkAgg (k :: rest) st = checkAgg rest st from by
          simp [checkAgg, hs]]
        rw [show (k :: rest).filter reports_non_na = rest.filter reports_non_na
          from by simp [List.filter_cons, hrep0]]
        exact ih fun k' h => hc k' (List.mem_cons_of_mem _ h)
      · have hrep1 : reports_non_na k = true := by simp [hrep, hsna]
        rw [show checkAgg (k :: rest) st = Except.error () from by
          simp [checkAgg, hs, hsna, hst]]
        rw [show (k :: rest).filter reports_non_na =
            k :: rest.filter reports_non_na from by
          simp [List.filter_cons, hrep1]]
        simp

/-- Helper: starting from the `not_available` aggregate, the loop of
`DatabaseRelationManager.check` computes the spec's aggregate status,
provided each kind's own status check returns normally. -/
theorem checkAgg_from_na (kinds : List KindRelation)
    (hc : ∀ k ∈ kinds, k.count ≤ 1) :
    checkAgg kinds DatabaseRelationStatusEnum.not_available =
      aggregateStatusSpec kinds := by
  induction kinds with
  | nil => rfl
  | cons k rest ih =>
      obtain ⟨s, hs⟩ := relation_status_ok k (hc k (List.mem_cons_self k rest))
      have hrep := reports_non_na_of_ok k s hs
      have hc' : ∀ k' ∈ rest, k'.count ≤ 1 :=
        fun k' h => hc k' (List.mem_cons_of_mem _ h)
      by_cases hsna : s = DatabaseRelationStatusEnum.not_available
      · subst hsna
        have hrep0 : reports_non_na k = false := by simp [hrep]
        rw [show checkAgg (k :: rest) DatabaseRelationStatusEnum.not_available =
            checkAgg rest DatabaseRelationStatusEnum.not_available from by
          simp [checkAgg, hs]]
        unfold aggregateStatusSpec
        rw [show (k :: rest).filter reports_non_na = rest.filter reports_non_na
          from by simp [List.filter_cons, hrep0]]
        exact ih hc'
      · have hrep1 : reports_non_na k = true := by simp [hrep, hsna]
        rw [show checkAgg (k :: rest) DatabaseRelationStatusEnum.not_available =
            checkAgg rest s from by simp [checkAgg, hs, hsna]]
        rw [checkAgg_acc_active rest hc' s hsna]
        unfold aggregateStatusSpec
        rw [show (k :: rest).filter reports_non_na =
            k :: rest.filter reports_non_na from by
          simp [List.filter_cons, hrep1]]
        cases hrf : rest.filter reports_non_na with
        | nil => simp [hrf, hs]
        | cons a l => simp [hrf]

/-- C3 (amended): provided every kind has at most one established
relation, the aggregate `check` computes exactly the spec's
`aggregateStatus` — it raises `MultipleRelationsToDBError` if and only if
at least two kinds simultaneously report a status other than
`not_available`, and otherwise returns the single non-`not_available`
status found, or `not_available` if none. -/
theorem drm_check_aggregates_spec (kinds : List KindRelation)
    (hc : ∀ k ∈ kinds, k.count ≤ 1) :
    DatabaseRelationManager.check kinds = aggregateStatusSpec kinds ∧
    (DatabaseRelationManager.check kinds = Except.error () ↔
      2 ≤ (kinds.filter reports_non_na).length) := by
  have h1 : DatabaseRelationManager.check kinds = aggregateStatusSpec kinds :=
    checkAgg_from_na kinds hc
  refine ⟨h1, ?_⟩
  rw [h1]
  unfold aggregateStatusSpec
  cases hrf : kinds.filter reports_non_na with
  | nil => simp
  | cons a l =>
      cases l with
      | nil =>
          have ha : a ∈ kinds :=
            List.mem_of_mem_filter (hrf ▸ List.mem_cons_self a ([] : List KindRelation))
          obtain ⟨s, hs⟩ := relation_status_ok a (hc a ha)
          simp [hs]
      | cons b m => simp

/-- Witness for C3: two configured kinds make the aggregate check raise. -/
theorem drm_check_aggregates_spec_witness :
    DatabaseRelationManager.check
        [⟨1, true, some ⟨"h", 3306, "", "u", "p", "d", 10, 1⟩⟩,
          ⟨1, true, some ⟨"g", 5432, "", "u", "p", "d", 10, 1⟩⟩] =
      aggregateStatusSpec
        [⟨1, true, some ⟨"h", 3306, "", "u", "p", "d", 10, 1⟩⟩,
          ⟨1, true, some ⟨"g", 5432, "", "u", "p", "d", 10, 1⟩⟩] ∧
    (DatabaseRelationManager.check
        [⟨1, true, some ⟨"h", 3306, "", "u", "p", "d", 10, 1⟩⟩,
          ⟨1, true, some ⟨"g", 5432, "", "u", "p", "d", 10, 1⟩⟩] =
        Except.error () ↔
      2 ≤ (([⟨1, true, some ⟨"h", 3306, "", "u", "p", "d", 10, 1⟩⟩,
          ⟨1, true, some ⟨"g", 5432, "", "u", "p", "d", 10, 1⟩⟩] :
            List KindRelation).filter reports_non_na).length) :=
  drm_check_aggregates_spec _ (by decide)

/-- Counterexample for C3 as stated: a single kind with two relations at
once makes `check` raise `MultipleRelationsToDBError` although zero kinds
report a status other than `not_available`. -/
theorem drm_check_raises_without_two_active :
    DatabaseRelationManager.check [⟨2, false, none⟩] = Except.error () ∧
    (([⟨2, false, none⟩] : List KindRelation).filter reports_non_na).length = 0 :=
  ⟨rfl, rfl⟩

end AggregateCheckTheorems

section ValidatorTheorems

/-- C5 (amended): the validator reports all absent fields among
`username`, `password`, `db_name` simultaneously in one error; the
missing-endpoint condition is a separate later check, reported by its own
error only when those three fields are all present. -/
theorem validator_missing_fields_reported (fs : String → Bool)
    (v : SysbenchBaseDatabaseModelInput) :
    (missing_params v ≠ [] →
      validate_if_missing_params fs v =
        Except.error (SysbenchMissingOptionsError.missingParams (missing_params v))) ∧
    (missing_params v = [] →
      os_path_exists fs (v.unix_socket.getD "") = false →
      optStrTruthy v.host = false →
      validate_if_missing_params fs v =
        Except.error SysbenchMissingOptionsError.missingEndpoint) := by
  constructor
  · intro h
    simp [validate_if_missing_params, h]
  · intro h hsock hhost
    simp [validate_if_missing_params, h, hsock, hhost]

/-- Witness for C5: username and password absent are reported together in
one error; with all three present but no endpoint, the endpoint error is
raised. -/
theorem validator_missing_fields_reported_witness :
    validate_if_missing_params (fun _ => false)
        ⟨none, none, none, none, none, some "d", 10, 1⟩ =
      Except.error (SysbenchMissingOptionsError.missingParams ["username", "password"]) ∧
    validate_if_missing_params (fun _ => false)
        ⟨none, none, none, some "u", some "p", some "d", 10, 1⟩ =
      Except.error SysbenchMissingOptionsError.missingEndpoint :=
  ⟨(validator_missing_fields_reported (fun _ => false)
      ⟨none, none, none, none, none, some "d", 10, 1⟩).1 (by decide),
    (validator_missing_fields_reported (fun _ => false)
      ⟨none, none, none, some "u", some "p", some "d", 10, 1⟩).2 rfl rfl rfl⟩

/-- Counterexample for C5 as stated: with username absent AND no endpoint
at all, the single error raised names only `username` — the missing
endpoint is not reported together with it. -/
theorem validator_endpoint_not_reported_with_params :
    validate_if_missing_params (fun _ => false)
        ⟨none, none, none, none, some "p", some "d", 10, 1⟩ =
      Except.error (SysbenchMissingOptionsError.missingParams ["username"]) ∧
    (⟨none, none, none, none, some "p", some "d", 10, 1⟩ :
      SysbenchBaseDatabaseModelInput).host = none ∧
    (⟨none, none, none, none, some "p", some "d", 10, 1⟩ :
      SysbenchBaseDatabaseModelInput).unix_socket = none := by
  refine ⟨rfl, rfl, rfl⟩

/-- C7 (amended): `SysbenchBaseDatabaseModel` construction succeeds
exactly when username, password and db_name are all present AND at least
one endpoint form is usable: either the unix socket path exists on disk,
or the host is truthy (the port defaulting to 443 when absent).  Both
forms may be present simultaneously (the socket is then preferred), and a
host without a port is accepted. -/
theorem validator_build_succeeds_iff (fs : String → Bool)
    (v : SysbenchBaseDatabaseModelInput) :
    buildSucceeds fs v =
      (v.username.isSome && v.password.isSome && v.db_name.isSome &&
        (os_path_exists fs (v.unix_socket.getD "") || optStrTruthy v.host)) := by
  rcases v with ⟨h, p, sk, u, pw, d, t, sc⟩
  cases u <;> cases pw <;> cases d <;>
    simp [buildSucceeds, validate_if_missing_params, missing_params] <;>
    cases hos : os_path_exists fs (sk.getD "") <;>
      cases hh : optStrTruthy h <;>
        simp [hos, hh]

/-- Counterexample for C7 as stated: a candidate with BOTH endpoint forms
present (host and port given, and an existing socket path) still builds
successfully — the socket is preferred and the host is blanked — whereas
the claim says such a candidate is not Configured. -/
theorem validator_accepts_both_endpoint_forms :
    validate_if_missing_params (fun _ => true)
        ⟨some "h", some 3306, some "/sock", some "u", some "p", some "d", 10, 1⟩ =
      Except.ok ⟨"", 443, "/sock", "u", "p", "d", 10, 1⟩ ∧
    (⟨some "h", some 3306, some "/sock", some "u", some "p", some "d", 10, 1⟩ :
      SysbenchBaseDatabaseModelInput).host = some "h" ∧
    (⟨some "h", some 3306, some "/sock", some "u", some "p", some "d", 10, 1⟩ :
      SysbenchBaseDatabaseModelInput).unix_socket = some "/sock" := by
  refine ⟨by decide, rfl, rfl⟩

end ValidatorTheorems

section CharmTheorems

/-- C8 (code bug): the recorded phase transitions directly from `unset`
to `error`.  On the leader with all records `unset` and the group healthy,
a failing prepare subprocess makes `on_prepare_action` write `error` into
this unit's (and the app's) record, even though the unit record read
`unset` before the call — contradicting the enum's own docstring that
ERROR is never set after UNSET. -/
theorem prepare_failure_sets_error_from_unset :
    SysbenchOperator.on_prepare_action ⟨true, 3, SysbenchExecStatusEnum.unset⟩ true false
        ⟨some ⟨some SysbenchExecStatusEnum.unset, some SysbenchExecStatusEnum.unset,
          [some SysbenchExecStatusEnum.unset]⟩⟩ =
      (SysbenchOperator.ActionResult.failedExec,
        ⟨some ⟨some SysbenchExecStatusEnum.error, some SysbenchExecStatusEnum.error,
          [some SysbenchExecStatusEnum.unset]⟩⟩) ∧
    SysbenchStatus.unit_status
        ⟨some ⟨some SysbenchExecStatusEnum.unset, some SysbenchExecStatusEnum.unset,
          [some SysbenchExecStatusEnum.unset]⟩⟩ =
      some SysbenchExecStatusEnum.unset := by
  refine ⟨by decide, rfl⟩

end CharmTheorems
